import Mathlib

/-!
Verification of the pyiPTMnet client library (`pyiptmnet/api.py`): a shallow
embedding of the batching/merging helper `__get_data` (the Batch Coordinator)
and of the response handling of the endpoint functions (the Endpoint Invoker),
together with theorems settling the specification's claims about them.

Python runtime values that can flow through `__get_data` are modelled by the
inductive type `PyVal`; Python exceptions by `Err` via `Except`.
-/

namespace Iptmnet

/-- Python exceptions that the modelled code can raise:
`httpError` for `requests.exceptions.HTTPError` from `raise_for_status()`,
`valueError` for `ValueError` (notably pandas' "The truth value of a DataFrame
is ambiguous" raised by `bool(df)`), `typeError` for `TypeError`. -/
inductive Err where
  | httpError (status : Nat)
  | valueError
  | typeError
deriving DecidableEq, Repr

/-- A Python dict key as it occurs in this code base: either a string, or the
built-in function `id` itself (which is what the bare name `id` denotes inside
`search`, `get_ptm_enzymes_from_list` and `get_ptm_ppi_from_list`, none of
which has a local variable named `id`). -/
inductive PyKey where
  | str (s : String)
  | builtinId
deriving DecidableEq, Repr

/-- Python runtime values that flow through `__get_data`: JSON-style lists and
dicts, pandas DataFrames (columns × rows), strings, ints, and `None`.
A DataFrame is kept abstract as its column names and its ordered rows. -/
inductive PyVal where
  | list (xs : List PyVal)
  | dict (entries : List (PyKey × PyVal))
  | dataFrame (cols : List String) (rows : List (List PyVal))
  | str (s : String)
  | int (n : Int)
  | none
deriving Repr

/-- Python `isinstance(v, list)`. -/
def PyVal.isList : PyVal → Bool
  | .list _ => true
  | _ => false

/-- Python `isinstance(v, builtins.dict)`. -/
def PyVal.isDict : PyVal → Bool
  | .dict _ => true
  | _ => false

/-- Python `isinstance(v, pd.DataFrame)`. -/
def PyVal.isDataFrame : PyVal → Bool
  | .dataFrame _ _ => true
  | _ => false

/-- Python truthiness `bool(v)` as used by `if chunk_result:`.  Lists, dicts
and strings are truthy iff non-empty, ints iff non-zero, `None` is falsy.
`bool` of a pandas DataFrame always raises
`ValueError: The truth value of a DataFrame is ambiguous`, for empty and
non-empty frames alike. -/
def pyTruthy : PyVal → Except Err Bool
  | .list xs => Except.ok (!xs.isEmpty)
  | .dict es => Except.ok (!es.isEmpty)
  | .dataFrame _ _ => Except.error Err.valueError
  | .str s => Except.ok (!(s == ""))
  | .int n => Except.ok (!(n == 0))
  | .none => Except.ok false

/-- Total restatement of `pyTruthy` for values that are not DataFrames,
used to phrase the retained-chunk filter. Its value on a DataFrame is
irrelevant (the partial `pyTruthy` raises there). -/
def pyTruthyBool : PyVal → Bool
  | .list xs => !xs.isEmpty
  | .dict es => !es.isEmpty
  | .dataFrame _ _ => false
  | .str s => !(s == "")
  | .int n => !(n == 0)
  | .none => false

/-- Fuel-driven worker for `chunks1000`: with enough fuel it peels off
`xs[0:1000]`, then recurses on `xs[1000:]`, exactly like the loop
`for i in range(0, len(sites), 1000): chunk = sites[i : i + 1000]`. -/
def chunksAux (fuel : Nat) (xs : List α) : List (List α) :=
  match fuel, xs with
  | 0, _ => []
  | _, [] => []
  | fuel + 1, xs => xs.take 1000 :: chunksAux fuel (xs.drop 1000)

/-- The chunk sequence produced by `for i in range(0, len(sites), 1000)` with
slices `sites[i : i + 1000]`: contiguous slices of 1000 items, the last one
holding whatever remains.  `xs.length` fuel always suffices because every
step consumes at least one element. -/
def chunks1000 (xs : List α) : List (List α) :=
  chunksAux xs.length xs

/-- The per-chunk loop of `__get_data` (lines 519–524): call
`get_data_func(chunk, dict=dict)` on each chunk in order, test the result with
`if chunk_result:` and keep it only if truthy.  Returns the list of chunks on
which `get_data_func` was actually invoked (the trace — a raised exception
aborts the loop) together with the retained results, or the first exception. -/
def runChunks (f : List α → Except Err PyVal) :
    List (List α) → List (List α) × Except Err (List PyVal)
  | [] => ([], Except.ok [])
  | c :: cs =>
    match f c with
    | Except.error e => ([c], Except.error e)
    | Except.ok r =>
      match pyTruthy r with
      | Except.error e => ([c], Except.error e)
      | Except.ok b =>
        match runChunks f cs with
        | (tr, Except.error e) => (c :: tr, Except.error e)
        | (tr, Except.ok rest) => (c :: tr, Except.ok (if b then r :: rest else rest))

/-- The `dict is True` merge of `__get_data` (lines 530–540): build `flattened`
by `extend`ing with list chunks and `append`ing everything else (the
`isinstance(chunk, builtins.dict)` arm and the fallback arm both `append`). -/
def flattenChunks (chunks : List PyVal) : List PyVal :=
  chunks.foldl
    (fun acc c =>
      match c with
      | PyVal.list xs => acc ++ xs
      | other => acc ++ [other])
    []

/-- One key-value store into a Python dict: an existing key keeps its position
and gets the new value, a new key is appended at the end (insertion order). -/
def updOne (d : List (PyKey × PyVal)) (k : PyKey) (v : PyVal) :
    List (PyKey × PyVal) :=
  if d.any (fun p => p.1 == k) then
    d.map (fun p => if p.1 == k then (k, v) else p)
  else
    d ++ [(k, v)]

/-- Python `d.update(es)` for a dict argument: store the entries left to right. -/
def updAll (d : List (PyKey × PyVal)) (es : List (PyKey × PyVal)) :
    List (PyKey × PyVal) :=
  es.foldl (fun d p => updOne d p.1 p.2) d

/-- The mapping merge of `__get_data` (lines 548–552): `merged = {}` then
`merged.update(chunk)` per retained chunk.  `dict.update` with a non-mapping
chunk raises `TypeError` (none of the endpoint result shapes is a key-value
pair iterable, so that is the behaviour for every non-dict `PyVal` here). -/
def dictUpdateFold (acc : List (PyKey × PyVal)) :
    List PyVal → Except Err (List (PyKey × PyVal))
  | [] => Except.ok acc
  | v :: vs =>
    match v with
    | PyVal.dict es => dictUpdateFold (updAll acc es) vs
    | _ => Except.error Err.typeError

/-- Rows contributed by the tail of `pd.concat`'s argument list; a non-frame
element raises `TypeError` inside pandas. -/
def concatRows : List PyVal → Except Err (List (List PyVal))
  | [] => Except.ok []
  | PyVal.dataFrame _ rows :: rest => (concatRows rest).map (fun more => rows ++ more)
  | _ => Except.error Err.typeError

/-- Models `pd.concat(all_chunks, ignore_index=True)` (line 546), under the
identical-columns assumption the code itself makes: the result keeps the first
frame's columns and concatenates all rows in order.  `pd.concat([])` raises
`ValueError`; a non-frame element raises `TypeError`. -/
def pdConcat (vs : List PyVal) : Except Err PyVal :=
  match vs with
  | [] => Except.error Err.valueError
  | PyVal.dataFrame cols rows :: rest =>
    (concatRows rest).map (fun more => PyVal.dataFrame cols (rows ++ more))
  | _ => Except.error Err.typeError

/-- The merge step of `__get_data` (lines 526–555) applied to the retained
chunk results `all_chunks`: empty ⇒ `[] if dict else pd.DataFrame()`;
`dict is True` ⇒ flatten; else dispatch on the runtime type of
`all_chunks[0]` — DataFrame ⇒ `pd.concat`, dict ⇒ successive `update`,
anything else ⇒ return `all_chunks` unmerged. -/
def mergeChunks (mode : Option Bool) (allChunks : List PyVal) : Except Err PyVal :=
  if allChunks.isEmpty then
    Except.ok (if mode = Option.some true then PyVal.list [] else PyVal.dataFrame [] [])
  else if mode = Option.some true then
    Except.ok (PyVal.list (flattenChunks allChunks))
  else
    match allChunks with
    | [] => Except.ok (PyVal.list [])
    | first :: _ =>
      match first with
      | PyVal.dataFrame _ _ => pdConcat allChunks
      | PyVal.dict _ => (dictUpdateFold [] allChunks).map PyVal.dict
      | _ => Except.ok (PyVal.list allChunks)

/-- The core `__get_data(sites, get_data_func, dict=mode)` (lines 494–555).  `mode` is
the Python `dict` keyword argument (`None` / `False` / `True` ↦
`Option.none` / `some false` / `some true`; only `True` is truthy among
these, and the code tests both `if dict` and `if dict is True`).
The site type is left generic: the Python code only measures and slices the
`sites` list, never inspecting its elements. -/
def getData (sites : List α) (f : List α → Except Err PyVal) (mode : Option Bool) :
    Except Err PyVal :=
  if sites.length ≤ 1000 then
    f sites
  else
    match (runChunks f (chunks1000 sites)).2 with
    | Except.error e => Except.error e
    | Except.ok allChunks => mergeChunks mode allChunks

/-- An HTTP response as the endpoint functions see it: `status_code` and
`text`. -/
structure HttpResponse where
  status : Nat
  text : String

/-- Python `raise_for_status()`: raises `HTTPError` for 4xx/5xx, does nothing (so the
enclosing function falls through and returns `None`) otherwise. -/
def raiseForStatus (status : Nat) : Except Err PyVal :=
  if 400 ≤ status then Except.error (Err.httpError status)
  else Except.ok PyVal.none

/-- Response handling of `search` (lines 100–111), after the GET returned
`resp`.  `parseJson` models `json.loads`, `parseCsv` models
`_to_dataframe_from_json` (external parsers, passed in abstractly).
On status 200 with empty body it returns `{id: "No data found for the given
ID."}` — where `id` is the *built-in function* `id`, since `search` has no
local variable of that name. -/
def searchHandleResponse (mode : Option Bool) (resp : HttpResponse)
    (parseJson parseCsv : String → PyVal) : Except Err PyVal :=
  if resp.status = 200 then
    if resp.text == "" then
      Except.ok (PyVal.dict [(PyKey.builtinId, PyVal.str "No data found for the given ID.")])
    else if mode = Option.some true then
      Except.ok (parseJson resp.text)
    else
      Except.ok (parseCsv resp.text)
  else
    raiseForStatus resp.status

/-- Response handling of `get_ptm_enzymes_from_list` (lines 391–402).  On
status 200 with body `""` or `"[]"` it returns `{id: "No ptm enzymes found
for the given ID."}` — again with the built-in function `id` as the key
(the function's parameters are `items` and `dict`; no local `id` exists). -/
def getPtmEnzymesHandleResponse (mode : Option Bool) (resp : HttpResponse)
    (parseJson parseCsv : String → PyVal) : Except Err PyVal :=
  if resp.status = 200 then
    if resp.text == "" || resp.text == "[]" then
      Except.ok (PyVal.dict [(PyKey.builtinId, PyVal.str "No ptm enzymes found for the given ID.")])
    else if mode = Option.some true then
      Except.ok (parseJson resp.text)
    else
      Except.ok (parseCsv resp.text)
  else
    raiseForStatus resp.status

/-- Response handling of `get_info` (lines 133–141): here the enclosing
function's first parameter *is* named `id`, so the sentinel key really is the
requested identifier. -/
def getInfoHandleResponse (reqId : String) (resp : HttpResponse)
    (parseJson : String → PyVal) : Except Err PyVal :=
  if resp.status = 200 then
    if resp.text == "" then
      Except.ok (PyVal.dict [(PyKey.str reqId, PyVal.str "No info found for the given ID.")])
    else
      Except.ok (parseJson resp.text)
  else
    raiseForStatus resp.status

/-! ## Properties of the chunk partition -/

/-- The worker `chunksAux` does not depend on the exact fuel, as long as it is at least
the length of the list. -/
theorem chunksAux_congr :
    ∀ (f₁ f₂ : Nat) (xs : List α), xs.length ≤ f₁ → xs.length ≤ f₂ →
      chunksAux f₁ xs = chunksAux f₂ xs
  | 0, f₂, xs, h₁, _ => by
    have hx : xs = [] := List.length_eq_zero.mp (Nat.le_zero.mp h₁)
    subst hx; cases f₂ <;> rfl
  | f₁ + 1, 0, xs, _, h₂ => by
    have hx : xs = [] := List.length_eq_zero.mp (Nat.le_zero.mp h₂)
    subst hx; rfl
  | _ + 1, _ + 1, [], _, _ => rfl
  | f₁ + 1, f₂ + 1, a :: l, h₁, h₂ => by
    simp only [chunksAux]
    congr 1
    apply chunksAux_congr
    · rw [List.length_drop]
      simp only [List.length_cons] at h₁ ⊢
      omega
    · rw [List.length_drop]
      simp only [List.length_cons] at h₂ ⊢
      omega

theorem chunks1000_nil : chunks1000 ([] : List α) = [] := rfl

/-- Unfolding equation for `chunks1000` on a non-empty list: the loop emits
`xs[0:1000]` and continues on `xs[1000:]`. -/
theorem chunks1000_cons (xs : List α) (h : xs ≠ []) :
    chunks1000 xs = xs.take 1000 :: chunks1000 (xs.drop 1000) := by
  obtain ⟨a, l, rfl⟩ := List.exists_cons_of_ne_nil h
  show chunksAux (a :: l).length (a :: l) = _
  simp only [List.length_cons, chunksAux]
  congr 1
  apply chunksAux_congr
  · rw [List.length_drop]
    simp only [List.length_cons]
    omega
  · exact Nat.le_refl _

theorem chunks1000_eq_nil_iff (xs : List α) : chunks1000 xs = [] ↔ xs = [] := by
  constructor
  · intro h
    by_contra hne
    rw [chunks1000_cons xs hne] at h
    exact List.cons_ne_nil _ _ h
  · intro h
    subst h
    rfl

/-- A list that fits into a single chunk chunks to `[xs]`. -/
theorem chunks1000_of_length_le (xs : List α) (h1 : xs ≠ []) (h2 : xs.length ≤ 1000) :
    chunks1000 xs = [xs] := by
  rw [chunks1000_cons xs h1, List.take_of_length_le h2, List.drop_eq_nil_of_le h2,
    chunks1000_nil]

/-- Prepending a full block of exactly 1000 items produces one more chunk. -/
theorem chunks1000_append (l₁ l₂ : List α) (h₁ : l₁.length = 1000) :
    chunks1000 (l₁ ++ l₂) = l₁ :: chunks1000 l₂ := by
  have hne : l₁ ++ l₂ ≠ [] := by
    intro h
    rcases List.append_eq_nil.mp h with ⟨h1, _⟩
    rw [h1] at h₁
    simp at h₁
  rw [chunks1000_cons _ hne, List.take_left' h₁, List.drop_left' h₁]

theorem chunks1000_flatten_aux :
    ∀ (n : Nat) (xs : List α), xs.length ≤ n → (chunks1000 xs).flatten = xs
  | 0, xs, h => by
    have hx : xs = [] := List.length_eq_zero.mp (Nat.le_zero.mp h)
    subst hx; rfl
  | n + 1, xs, h => by
    by_cases hx : xs = []
    · subst hx; rfl
    · rw [chunks1000_cons xs hx, List.flatten_cons,
        chunks1000_flatten_aux n (xs.drop 1000)
          (by rw [List.length_drop]
              have : 1 ≤ xs.length := List.length_pos.mpr hx
              omega),
        List.take_append_drop]

/-- Concatenating the chunks in order reconstructs the original input. -/
theorem chunks1000_flatten (xs : List α) : (chunks1000 xs).flatten = xs :=
  chunks1000_flatten_aux xs.length xs (Nat.le_refl _)

theorem chunks1000_shape_aux :
    ∀ (n : Nat) (xs : List α), xs.length ≤ n → xs ≠ [] →
      (∀ c ∈ (chunks1000 xs).dropLast, c.length = 1000) ∧
        ∃ l, (chunks1000 xs).getLast? = Option.some l ∧
          l.length = if xs.length % 1000 = 0 then 1000 else xs.length % 1000
  | 0, xs, h, hne => by
    exact absurd (List.length_eq_zero.mp (Nat.le_zero.mp h)) hne
  | n + 1, xs, h, hne => by
    by_cases hsmall : xs.length ≤ 1000
    · rw [chunks1000_of_length_le xs hne hsmall]
      refine ⟨by simp, xs, rfl, ?_⟩
      have hpos : 1 ≤ xs.length := List.length_pos.mpr hne
      rcases Nat.lt_or_ge xs.length 1000 with hlt | hge
      · rw [Nat.mod_eq_of_lt hlt, if_neg (by omega)]
      · have h1000 : xs.length = 1000 := Nat.le_antisymm hsmall hge
        rw [h1000]
        norm_num
    · push_neg at hsmall
      have hdne : xs.drop 1000 ≠ [] := by
        intro hd
        have := List.length_eq_zero.mpr hd
        rw [List.length_drop] at this
        omega
      have hrec := chunks1000_shape_aux n (xs.drop 1000)
        (by rw [List.length_drop]; omega) hdne
      have hcne : chunks1000 (xs.drop 1000) ≠ [] :=
        fun hc => hdne ((chunks1000_eq_nil_iff _).mp hc)
      rw [chunks1000_cons xs hne]
      constructor
      · intro c hc
        rw [List.dropLast_cons_of_ne_nil hcne] at hc
        rcases List.mem_cons.mp hc with hc | hc
        · subst hc
          rw [List.length_take]
          omega
        · exact hrec.1 c hc
      · obtain ⟨l, hl, hlen⟩ := hrec.2
        refine ⟨l, ?_, ?_⟩
        · obtain ⟨c, cs, hcs⟩ := List.exists_cons_of_ne_nil hcne
          rw [hcs, List.getLast?_cons_cons, ← hcs, hl]
        · rw [hlen, List.length_drop]
          have hmod : xs.length % 1000 = (xs.length - 1000) % 1000 :=
            Nat.mod_eq_sub_mod (by omega)
          rw [← hmod]

/-- Every chunk before the last has exactly 1000 items; the last chunk has
`|xs| mod 1000` items, or 1000 when the remainder is zero. -/
theorem chunks1000_shape (xs : List α) (hne : xs ≠ []) :
    (∀ c ∈ (chunks1000 xs).dropLast, c.length = 1000) ∧
      ∃ l, (chunks1000 xs).getLast? = Option.some l ∧
        l.length = if xs.length % 1000 = 0 then 1000 else xs.length % 1000 :=
  chunks1000_shape_aux xs.length xs (Nat.le_refl _) hne

/-! ## Properties of the per-chunk loop -/

/-- For values that are not DataFrames, `bool(v)` does not raise and agrees
with the total `pyTruthyBool`. -/
theorem pyTruthy_eq_ok (v : PyVal) (h : v.isDataFrame = false) :
    pyTruthy v = Except.ok (pyTruthyBool v) := by
  cases v <;> first | rfl | simp [PyVal.isDataFrame] at h

/-- When every invocation succeeds and its result's truthiness test does not
raise, the loop invokes the function on every chunk, in order, exactly once,
and produces some retained-result list. -/
theorem runChunks_all_ok (f : List α → Except Err PyVal) :
    ∀ cs : List (List α),
      (∀ c ∈ cs, ∃ v b, f c = Except.ok v ∧ pyTruthy v = Except.ok b) →
      (runChunks f cs).1 = cs ∧ ∃ rs, (runChunks f cs).2 = Except.ok rs
  | [], _ => ⟨rfl, [], rfl⟩
  | c :: cs, h => by
    obtain ⟨v, b, hv, hb⟩ := h c (List.mem_cons_self c cs)
    obtain ⟨htr, rs, hrs⟩ := runChunks_all_ok f cs
      (fun c' hc' => h c' (List.mem_cons_of_mem c hc'))
    rcases hp : runChunks f cs with ⟨tr, res⟩
    rw [hp] at htr hrs
    simp only at htr hrs
    subst htr hrs
    refine ⟨?_, ?_⟩
    · simp [runChunks, hv, hb, hp, List.append_eq]
    · exact ⟨if b = true then v :: rs else rs,
        by simp [runChunks, hv, hb, hp, List.append_eq]⟩

/-- When every invocation returns `g c` and no result is a DataFrame, the
retained results are exactly the truthy values of `g`, in chunk order:
the `if chunk_result:` filter drops precisely the structurally falsy ones. -/
theorem runChunks_filter (f : List α → Except Err PyVal) (g : List α → PyVal) :
    ∀ cs : List (List α),
      (∀ c ∈ cs, f c = Except.ok (g c) ∧ (g c).isDataFrame = false) →
      (runChunks f cs).2 = Except.ok ((cs.map g).filter pyTruthyBool)
  | [], _ => rfl
  | c :: cs, h => by
    obtain ⟨hv, hdf⟩ := h c (List.mem_cons_self c cs)
    have hrec := runChunks_filter f g cs
      (fun c' hc' => h c' (List.mem_cons_of_mem c hc'))
    rcases hp : runChunks f cs with ⟨tr, res⟩
    rw [hp] at hrec
    simp only at hrec
    subst hrec
    simp only [runChunks, hv, pyTruthy_eq_ok (g c) hdf, hp, List.map_cons,
      List.filter_cons, List.append_eq]

/-- When all chunk results are structurally falsy, nothing is retained. -/
theorem runChunks_all_falsy (f : List α → Except Err PyVal) :
    ∀ cs : List (List α),
      (∀ c ∈ cs, ∃ v, f c = Except.ok v ∧ pyTruthy v = Except.ok false) →
      (runChunks f cs).2 = Except.ok []
  | [], _ => rfl
  | c :: cs, h => by
    obtain ⟨v, hv, hb⟩ := h c (List.mem_cons_self c cs)
    have hrec := runChunks_all_falsy f cs
      (fun c' hc' => h c' (List.mem_cons_of_mem c hc'))
    rcases hp : runChunks f cs with ⟨tr, res⟩
    rw [hp] at hrec
    simp only at hrec
    subst hrec
    simp [runChunks, hv, hb, hp]

/-- If the invocation on chunk `ck` raises after all earlier chunks went
through, the loop stops right there: the trace is `pre ++ [ck]` — the chunks
after `ck` are never invoked — and the exception propagates. -/
theorem runChunks_error (f : List α → Except Err PyVal) (e : Err)
    (ck : List α) (post : List (List α)) :
    ∀ pre : List (List α),
      (∀ c ∈ pre, ∃ v b, f c = Except.ok v ∧ pyTruthy v = Except.ok b) →
      f ck = Except.error e →
      (runChunks f (pre ++ ck :: post)).1 = pre ++ [ck] ∧
        (runChunks f (pre ++ ck :: post)).2 = Except.error e
  | [], _, hck => by
    simp [runChunks, hck]
  | c :: pre, h, hck => by
    obtain ⟨v, b, hv, hb⟩ := h c (List.mem_cons_self c pre)
    obtain ⟨htr, hres⟩ := runChunks_error f e ck post pre
      (fun c' hc' => h c' (List.mem_cons_of_mem c hc')) hck
    rcases hp : runChunks f (pre ++ ck :: post) with ⟨tr, res⟩
    rw [hp] at htr hres
    simp only at htr hres
    subst htr hres
    refine ⟨?_, ?_⟩
    · simp [runChunks, hv, hb, hp, List.append_eq]
    · simp [runChunks, hv, hb, hp, List.append_eq]

/-! ## Unfolding the Batch Coordinator -/

/-- Lines 514–516: with at most 1000 sites, `__get_data` is exactly one direct
call to `get_data_func`. -/
theorem getData_small (sites : List α) (f : List α → Except Err PyVal)
    (mode : Option Bool) (h : sites.length ≤ 1000) :
    getData sites f mode = f sites := by
  unfold getData
  rw [if_pos h]

theorem getData_big_ok (sites : List α) (f : List α → Except Err PyVal)
    (mode : Option Bool) (rs : List PyVal) (h : 1000 < sites.length)
    (hr : (runChunks f (chunks1000 sites)).2 = Except.ok rs) :
    getData sites f mode = mergeChunks mode rs := by
  unfold getData
  rw [if_neg (by omega), hr]

theorem getData_big_error (sites : List α) (f : List α → Except Err PyVal)
    (mode : Option Bool) (e : Err) (h : 1000 < sites.length)
    (hr : (runChunks f (chunks1000 sites)).2 = Except.error e) :
    getData sites f mode = Except.error e := by
  unfold getData
  rw [if_neg (by omega), hr]

/-- The `flattened` loop builds exactly the one-level flattening of the
retained chunk results: list chunks are spliced, everything else is appended
as a single element, in order. -/
theorem flattenChunks_eq_flatMap (chunks : List PyVal) :
    flattenChunks chunks
      = chunks.flatMap (fun v =>
          match v with
          | PyVal.list xs => xs
          | v => [v]) := by
  have key : ∀ (cs : List PyVal) (acc : List PyVal),
      cs.foldl
          (fun acc c =>
            match c with
            | PyVal.list xs => acc ++ xs
            | other => acc ++ [other])
          acc
        = acc ++ cs.flatMap (fun v =>
            match v with
            | PyVal.list xs => xs
            | v => [v]) := by
    intro cs
    induction cs with
    | nil => intro acc; simp
    | cons c cs ih =>
      intro acc
      rw [List.foldl_cons, ih, List.flatMap_cons]
      cases c <;> simp
  rw [flattenChunks, key, List.nil_append]

/-- Python `dict.update` succeeds on every element when all retained results are
mappings. -/
theorem dictUpdateFold_ok :
    ∀ (rs : List PyVal) (acc : List (PyKey × PyVal)),
      (∀ v ∈ rs, v.isDict = true) →
      ∃ m, dictUpdateFold acc rs = Except.ok m
  | [], acc, _ => ⟨acc, rfl⟩
  | v :: rs, acc, h => by
    have hv := h v (List.mem_cons_self v rs)
    cases v with
    | dict es =>
      obtain ⟨m, hm⟩ := dictUpdateFold_ok rs (updAll acc es)
        (fun v' hv' => h v' (List.mem_cons_of_mem _ hv'))
      exact ⟨m, hm⟩
    | list _ => simp [PyVal.isDict] at hv
    | dataFrame _ _ => simp [PyVal.isDict] at hv
    | str _ => simp [PyVal.isDict] at hv
    | int _ => simp [PyVal.isDict] at hv
    | none => simp [PyVal.isDict] at hv

/-! ## Concrete inputs used to instantiate the claims -/

/-- A 1001-site input (two chunks: 1000 zeros, then `[1]`); the site type is
irrelevant to `__get_data`, which only measures and slices the list. -/
def wSites1001 : List Nat := List.replicate 1000 0 ++ [1]

/-- A 2001-site input (three chunks: 1000 zeros, 1000 ones, then `[2]`). -/
def wSites2001 : List Nat := List.replicate 1000 0 ++ (List.replicate 1000 1 ++ [2])

theorem wSites1001_length : wSites1001.length = 1001 := by
  rw [wSites1001]
  simp only [List.length_append, List.length_replicate, List.length_cons,
    List.length_nil]

theorem wSites2001_length : wSites2001.length = 2001 := by
  rw [wSites2001]
  simp only [List.length_append, List.length_replicate, List.length_cons,
    List.length_nil]

theorem wSites1001_chunks :
    chunks1000 wSites1001 = [List.replicate 1000 0, [1]] := by
  rw [wSites1001, chunks1000_append _ _ (by rw [List.length_replicate]),
    chunks1000_of_length_le [1] (by decide) (by decide)]

theorem wSites2001_chunks :
    chunks1000 wSites2001
      = [List.replicate 1000 0, List.replicate 1000 1, [2]] := by
  rw [wSites2001, chunks1000_append _ _ (by rw [List.length_replicate]),
    chunks1000_append _ _ (by rw [List.length_replicate]),
    chunks1000_of_length_le [2] (by decide) (by decide)]

/-! ## The claims -/

/-- C1: for every list of at most 1000 sites, every invoker and every
output-mode flag, the batch operation returns exactly the result of the single
direct call `invokeFn(items, outputMode)`, unchanged, with no partitioning. -/
theorem claim1_small_passthrough (sites : List α) (f : List α → Except Err PyVal)
    (mode : Option Bool) (h : sites.length ≤ 1000) :
    getData sites f mode = f sites :=
  getData_small sites f mode h

/-- Witness for C1 at a concrete three-site input. -/
theorem claim1_small_passthrough_witness :
    ([0, 1, 2] : List Nat).length ≤ 1000 ∧
      getData ([0, 1, 2] : List Nat)
          (fun l => Except.ok (PyVal.int (Int.ofNat l.length))) Option.none
        = Except.ok (PyVal.int 3) :=
  ⟨by decide, by rw [claim1_small_passthrough _ _ _ (by decide)]; rfl⟩

/-- C2: for more than 1000 sites, the input is partitioned into contiguous
chunks of exactly 1000 items, except the final chunk which holds the remainder
(1000 when the remainder is zero); the invoker is invoked exactly once per
chunk in input order, and the chunks concatenate back to the original input
with no reordering, drops or duplication. -/
theorem claim2_partition (sites : List α) (f : List α → Except Err PyVal)
    (hlen : 1000 < sites.length)
    (hf : ∀ c ∈ chunks1000 sites,
      ∃ v b, f c = Except.ok v ∧ pyTruthy v = Except.ok b) :
    (chunks1000 sites).flatten = sites ∧
      (∀ c ∈ (chunks1000 sites).dropLast, c.length = 1000) ∧
      (∃ l, (chunks1000 sites).getLast? = Option.some l ∧
        l.length = if sites.length % 1000 = 0 then 1000 else sites.length % 1000) ∧
      (runChunks f (chunks1000 sites)).1 = chunks1000 sites := by
  have hne : sites ≠ [] := by
    intro h
    rw [h] at hlen
    simp at hlen
  obtain ⟨h1, h2⟩ := chunks1000_shape sites hne
  exact ⟨chunks1000_flatten sites, h1, h2, (runChunks_all_ok f _ hf).1⟩

/-- Witness for C2 on a concrete 2001-site input with a constant invoker. -/
theorem claim2_partition_witness :
    (chunks1000 wSites2001).flatten = wSites2001 ∧
      (∀ c ∈ (chunks1000 wSites2001).dropLast, c.length = 1000) ∧
      (∃ l, (chunks1000 wSites2001).getLast? = Option.some l ∧
        l.length
          = if wSites2001.length % 1000 = 0 then 1000 else wSites2001.length % 1000) ∧
      (runChunks (fun _ => Except.ok (PyVal.int 1)) (chunks1000 wSites2001)).1
        = chunks1000 wSites2001 :=
  claim2_partition wSites2001 _ (by rw [wSites2001_length]; omega)
    (fun c _ => ⟨PyVal.int 1, true, rfl, rfl⟩)

/-- C3 is a code bug: in tabular mode (the default), a multi-chunk batch whose
chunks return DataFrames raises `ValueError` at the `if chunk_result:`
truthiness filter — pandas refuses `bool(df)` as ambiguous — so the
row-concatenation branch of the merge is never reached and no merged Table is
ever produced.  This theorem evaluates the code at such an input. -/
theorem claim3_table_chunks_raise :
    getData wSites1001
        (fun _ => Except.ok (PyVal.dataFrame ["enzyme"] [[PyVal.str "K1"]]))
        Option.none
      = Except.error Err.valueError := by
  apply getData_big_error _ _ _ _ (by rw [wSites1001_length]; omega)
  rw [wSites1001_chunks]
  rfl

theorem head?_replicate_1000 (a : α) :
    (List.replicate 1000 a).head? = Option.some a := by
  rw [List.head?_replicate]
  rfl

/-- C4: in list mode (`dict=True`), a multi-chunk batch merges the retained
chunk results into one flat ordered sequence — list results are spliced in,
non-list results appended as single elements — preserving chunk order, then
element order within each chunk. -/
theorem claim4_list_merge (sites : List α) (f : List α → Except Err PyVal)
    (rs : List PyVal) (hlen : 1000 < sites.length)
    (hr : (runChunks f (chunks1000 sites)).2 = Except.ok rs) :
    getData sites f (Option.some true)
      = Except.ok (PyVal.list (rs.flatMap (fun v =>
          match v with
          | PyVal.list xs => xs
          | v => [v]))) := by
  rw [getData_big_ok sites f _ rs hlen hr, ← flattenChunks_eq_flatMap]
  cases rs with
  | nil => rfl
  | cons r rest => simp [mergeChunks]

/-- Invoker for the C4 witness: chunk results `[a]`, `[b,c]`, `[d]` keyed on
the chunk's first site. -/
def wInvoke4 : List Nat → Except Err PyVal := fun c =>
  Except.ok (PyVal.list
    (if c.head? = Option.some 0 then [PyVal.str "a"]
     else if c.head? = Option.some 1 then [PyVal.str "b", PyVal.str "c"]
     else [PyVal.str "d"]))

/-- Witness for C4: chunk results `[a]`, `[b,c]`, `[d]` merge to
`[a, b, c, d]`. -/
theorem claim4_list_merge_witness :
    getData wSites2001 wInvoke4 (Option.some true)
      = Except.ok (PyVal.list
          [PyVal.str "a", PyVal.str "b", PyVal.str "c", PyVal.str "d"]) := by
  have h := claim4_list_merge wSites2001 wInvoke4
    [PyVal.list [PyVal.str "a"], PyVal.list [PyVal.str "b", PyVal.str "c"],
      PyVal.list [PyVal.str "d"]]
    (by rw [wSites2001_length]; omega)
    (by rw [wSites2001_chunks]
        simp [runChunks, wInvoke4, pyTruthy, head?_replicate_1000,
          -List.reduceReplicate])
  simpa using h

/-- C5: in tabular mode, when the first retained chunk result is a mapping,
all retained mappings are merged into one mapping by successive key-wise
`update` — so on a key collision the later chunk's value wins. -/
theorem claim5_mapping_merge (sites : List α) (f : List α → Except Err PyVal)
    (rs : List PyVal) (mode : Option Bool) (hlen : 1000 < sites.length)
    (hmode : mode ≠ Option.some true)
    (hr : (runChunks f (chunks1000 sites)).2 = Except.ok rs)
    (hne : rs ≠ [])
    (hdicts : ∀ v ∈ rs, v.isDict = true) :
    ∃ m, dictUpdateFold [] rs = Except.ok m ∧
      getData sites f mode = Except.ok (PyVal.dict m) := by
  obtain ⟨m, hm⟩ := dictUpdateFold_ok rs [] hdicts
  refine ⟨m, hm, ?_⟩
  rw [getData_big_ok sites f mode rs hlen hr]
  obtain ⟨r, rest, rfl⟩ := List.exists_cons_of_ne_nil hne
  have hd := hdicts r (List.mem_cons_self r rest)
  cases r with
  | dict es => simp [mergeChunks, hmode, hm, Except.map]
  | list _ => simp [PyVal.isDict] at hd
  | dataFrame _ _ => simp [PyVal.isDict] at hd
  | str _ => simp [PyVal.isDict] at hd
  | int _ => simp [PyVal.isDict] at hd
  | none => simp [PyVal.isDict] at hd

/-- Invoker for the C5 witness: chunk A returns `{"x": 1}`, chunk B returns
`{"x": 2}`. -/
def wInvoke5 : List Nat → Except Err PyVal := fun c =>
  Except.ok (PyVal.dict [(PyKey.str "x",
    PyVal.int (if c.head? = Option.some 0 then 1 else 2))])

/-- Witness for C5: `{"x": 1}` then `{"x": 2}` merge to `{"x": 2}` — last
write wins. -/
theorem claim5_mapping_merge_witness :
    getData wSites1001 wInvoke5 Option.none
      = Except.ok (PyVal.dict [(PyKey.str "x", PyVal.int 2)]) := by
  obtain ⟨m, hm, hg⟩ := claim5_mapping_merge wSites1001 wInvoke5
    [PyVal.dict [(PyKey.str "x", PyVal.int 1)],
      PyVal.dict [(PyKey.str "x", PyVal.int 2)]]
    Option.none (by rw [wSites1001_length]; omega) (by simp)
    (by rw [wSites1001_chunks]
        simp [runChunks, wInvoke5, pyTruthy, head?_replicate_1000,
          -List.reduceReplicate])
    (by simp)
    (by intro v hv
        simp only [List.mem_cons, List.not_mem_nil, or_false] at hv
        rcases hv with rfl | rfl <;> rfl)
  have h2 : dictUpdateFold []
      [PyVal.dict [(PyKey.str "x", PyVal.int 1)],
        PyVal.dict [(PyKey.str "x", PyVal.int 2)]]
      = Except.ok [(PyKey.str "x", PyVal.int 2)] := rfl
  rw [hm] at h2
  have h3 : m = [(PyKey.str "x", PyVal.int 2)] := Except.ok.inj h2
  rw [hg, h3]

/-- C6: when every chunk result is structurally falsy, the batch raises
nothing and returns an empty list in list mode, an empty zero-row Table
otherwise. -/
theorem claim6_all_empty (sites : List α) (f : List α → Except Err PyVal)
    (mode : Option Bool) (hlen : 1000 < sites.length)
    (hfalsy : ∀ c ∈ chunks1000 sites,
      ∃ v, f c = Except.ok v ∧ pyTruthy v = Except.ok false) :
    getData sites f mode
      = Except.ok
          (if mode = Option.some true then PyVal.list []
           else PyVal.dataFrame [] []) := by
  rw [getData_big_ok sites f mode [] hlen (runChunks_all_falsy f _ hfalsy)]
  rfl

/-- Witness for C6 in both modes, with every chunk returning an empty list. -/
theorem claim6_all_empty_witness :
    getData wSites1001 (fun _ => Except.ok (PyVal.list [])) (Option.some true)
        = Except.ok (PyVal.list []) ∧
      getData wSites1001 (fun _ => Except.ok (PyVal.list [])) Option.none
        = Except.ok (PyVal.dataFrame [] []) := by
  constructor
  · have h := claim6_all_empty wSites1001 (fun _ => Except.ok (PyVal.list []))
      (Option.some true) (by rw [wSites1001_length]; omega)
      (fun c _ => ⟨PyVal.list [], rfl, rfl⟩)
    simpa using h
  · have h := claim6_all_empty wSites1001 (fun _ => Except.ok (PyVal.list []))
      Option.none (by rw [wSites1001_length]; omega)
      (fun c _ => ⟨PyVal.list [], rfl, rfl⟩)
    simpa using h

/-- C7: when list mode is off and the first retained chunk result is neither a
DataFrame nor a mapping, the merge step raises nothing and returns the raw
ordered sequence of retained chunk results unmerged. -/
theorem claim7_fallback (sites : List α) (f : List α → Except Err PyVal)
    (first : PyVal) (rest : List PyVal) (mode : Option Bool)
    (hlen : 1000 < sites.length) (hmode : mode ≠ Option.some true)
    (hr : (runChunks f (chunks1000 sites)).2 = Except.ok (first :: rest))
    (hdf : first.isDataFrame = false) (hdict : first.isDict = false) :
    getData sites f mode = Except.ok (PyVal.list (first :: rest)) := by
  rw [getData_big_ok sites f mode _ hlen hr]
  cases first with
  | dataFrame _ _ => simp [PyVal.isDataFrame] at hdf
  | dict _ => simp [PyVal.isDict] at hdict
  | list _ => simp [mergeChunks, hmode]
  | str _ => simp [mergeChunks, hmode]
  | int _ => simp [mergeChunks, hmode]
  | none => simp [mergeChunks, hmode]

/-- Invoker for the C7 witness: chunk results are bare strings, a shape none
of the merge cases recognises. -/
def wInvoke7 : List Nat → Except Err PyVal := fun c =>
  Except.ok (PyVal.str (if c.head? = Option.some 0 then "alpha" else "beta"))

/-- Witness for C7: two retained string results come back unmerged, in
order. -/
theorem claim7_fallback_witness :
    getData wSites1001 wInvoke7 Option.none
      = Except.ok (PyVal.list [PyVal.str "alpha", PyVal.str "beta"]) :=
  claim7_fallback wSites1001 wInvoke7 (PyVal.str "alpha") [PyVal.str "beta"]
    Option.none (by rw [wSites1001_length]; omega) (by simp)
    (by rw [wSites1001_chunks]
        simp [runChunks, wInvoke7, pyTruthy, head?_replicate_1000,
          -List.reduceReplicate])
    rfl rfl

/-- C8: if the invocation of chunk `ck` raises a transport error after all
chunks before it went through, the batch operation propagates that very error
and the trace of invoked chunks ends at `ck` — no retry, and no chunk after
`ck` is ever invoked. -/
theorem claim8_failfast (sites : List α) (f : List α → Except Err PyVal)
    (mode : Option Bool) (pre : List (List α)) (ck : List α)
    (post : List (List α)) (e : Err)
    (hlen : 1000 < sites.length)
    (hchunks : chunks1000 sites = pre ++ ck :: post)
    (hpre : ∀ c ∈ pre, ∃ v b, f c = Except.ok v ∧ pyTruthy v = Except.ok b)
    (hck : f ck = Except.error e) :
    getData sites f mode = Except.error e ∧
      (runChunks f (chunks1000 sites)).1 = pre ++ [ck] := by
  obtain ⟨h1, h2⟩ := runChunks_error f e ck post pre hpre hck
  refine ⟨getData_big_error sites f mode e hlen (by rw [hchunks]; exact h2), ?_⟩
  rw [hchunks]
  exact h1

/-- Invoker for the C8 witness: the second chunk (first site `1`) raises a
transport error with status 500; every other chunk succeeds. -/
def wInvoke8 : List Nat → Except Err PyVal := fun c =>
  if c.head? = Option.some 1 then Except.error (Err.httpError 500)
  else Except.ok (PyVal.int 1)

/-- Witness for C8: with chunk 2 of 3 failing, the error propagates and the
trace stops after chunk 2 — chunk 3 is never invoked. -/
theorem claim8_failfast_witness :
    getData wSites2001 wInvoke8 Option.none = Except.error (Err.httpError 500) ∧
      (runChunks wInvoke8 (chunks1000 wSites2001)).1
        = [List.replicate 1000 0, List.replicate 1000 1] := by
  have h := claim8_failfast wSites2001 wInvoke8 Option.none
    [List.replicate 1000 0] (List.replicate 1000 1) [[2]] (Err.httpError 500)
    (by rw [wSites2001_length]; omega)
    (by rw [wSites2001_chunks]; rfl)
    (by intro c hc
        have hc0 : c = List.replicate 1000 0 := List.mem_singleton.mp hc
        subst hc0
        exact ⟨PyVal.int 1, true,
          by simp [wInvoke8, head?_replicate_1000, -List.reduceReplicate],
          rfl⟩)
    (by simp [wInvoke8, head?_replicate_1000, -List.reduceReplicate])
  simpa only [List.cons_append, List.nil_append] using h

/-- C9 is a code bug: on a successful (200) response with an empty body,
`search` and the batch-list endpoints build their sentinel as `{id: ...}`
where `id` is Python's *built-in function* `id` (no local variable of that
name is in scope there), so the mapping's key is the builtin function object,
not the requested identifier — contradicting both the spec and the functions'
own docstrings.  The message strings themselves are the documented ones, and
no exception is raised.  `get_info`, whose parameter *is* named `id`, keys the
sentinel by the requested identifier as documented. -/
theorem claim9_sentinel_key_is_builtin_id :
    (searchHandleResponse Option.none ⟨200, ""⟩
        (fun _ => PyVal.none) (fun _ => PyVal.none)
      = Except.ok (PyVal.dict
          [(PyKey.builtinId, PyVal.str "No data found for the given ID.")]))
    ∧ (getPtmEnzymesHandleResponse Option.none ⟨200, ""⟩
        (fun _ => PyVal.none) (fun _ => PyVal.none)
      = Except.ok (PyVal.dict
          [(PyKey.builtinId, PyVal.str "No ptm enzymes found for the given ID.")]))
    ∧ PyKey.builtinId ≠ PyKey.str "Q15796"
    ∧ (getInfoHandleResponse "Q15796" ⟨200, ""⟩ (fun _ => PyVal.none)
      = Except.ok (PyVal.dict
          [(PyKey.str "Q15796", PyVal.str "No info found for the given ID.")])) :=
  ⟨rfl, rfl, by decide, rfl⟩

/-- C10: when every chunk invocation succeeds and no result is a DataFrame,
the `if chunk_result:` filter retains exactly the results that are not
structurally falsy — a non-empty sentinel mapping is truthy, so it is
retained — and in list mode the merged output is the flattening of those
retained results, a retained mapping appearing as a single ordinary
element. -/
theorem claim10_sentinel_retained (sites : List α)
    (f : List α → Except Err PyVal) (g : List α → PyVal)
    (hlen : 1000 < sites.length)
    (hf : ∀ c ∈ chunks1000 sites,
      f c = Except.ok (g c) ∧ (g c).isDataFrame = false) :
    getData sites f (Option.some true)
      = Except.ok (PyVal.list (flattenChunks
          (((chunks1000 sites).map g).filter pyTruthyBool))) := by
  rw [getData_big_ok sites f _ _ hlen (runChunks_filter f g _ hf)]
  cases hfl : ((chunks1000 sites).map g).filter pyTruthyBool with
  | nil => rfl
  | cons r rest => simp [mergeChunks]

/-- The `EmptyResultSentinel` produced by `get_ptm_enzymes_from_list`. -/
def wSentinel : PyVal :=
  PyVal.dict [(PyKey.builtinId, PyVal.str "No ptm enzymes found for the given ID.")]

/-- Invoker for the C10 witness: the first chunk yields the sentinel mapping,
the second an empty (falsy) list. -/
def wInvoke10 : List Nat → Except Err PyVal := fun c =>
  Except.ok (if c.head? = Option.some 0 then wSentinel else PyVal.list [])

/-- Witness for C10: the sentinel mapping survives the falsy filter and shows
up as one ordinary element of the flattened list-mode output, while the empty
list result is dropped. -/
theorem claim10_sentinel_retained_witness :
    getData wSites1001 wInvoke10 (Option.some true)
      = Except.ok (PyVal.list [wSentinel]) := by
  have h := claim10_sentinel_retained wSites1001 wInvoke10
    (fun c => if c.head? = Option.some 0 then wSentinel else PyVal.list [])
    (by rw [wSites1001_length]; omega)
    (fun c _ => ⟨rfl, by
      by_cases hc : c.head? = Option.some 0 <;>
        simp [hc, wSentinel, PyVal.isDataFrame]⟩)
  rw [wSites1001_chunks] at h
  simpa [head?_replicate_1000, wSentinel, flattenChunks, pyTruthyBool,
    -List.reduceReplicate] using h

end Iptmnet
